import Mathlib

/-!
# Verification of the retail sales ETL pipeline (`src/etl_pipeline.py`)

Shallow embedding of the pipeline's data model and operations:

* A pandas `DataFrame` is modelled as an ordered list of column names plus a
  list of rows, where each row is an association list from column name to a
  loosely-typed `Value` (null / string / number / datetime).  A row that has
  no entry for a column holds an implicit null there, matching pandas NaN
  fill-in on heterogeneous concatenation.
* Machine floats are modelled as exact rationals (`ℚ`): the pipeline applies
  no rounding of its own, only a single multiplication.
* Library calls that can raise (`df['c']` on a missing column, `.astype` on a
  non-Series, `dropna(subset=...)` with a missing label) are modelled with
  `Except String`; per-cell coercions (`pd.to_datetime` / `pd.to_numeric`
  with `errors='coerce'`) are modelled as total parsers that yield null on
  failure, never an error.
-/

set_option autoImplicit false

set_option allowUnsafeReducibility true

attribute [local semireducible] Rat.mul Rat.inv

deriving instance DecidableEq for Except

namespace Etl

/-- A loosely-typed cell value: null (NaN/NaT/None), string, number
(exact rational standing in for a float), or datetime (encoded as an
integer ordinal). -/
inductive Value where
  | null
  | str (s : String)
  | num (q : ℚ)
  | date (d : Int)
  deriving DecidableEq, Repr

/-- A row: an association list from column name to value.  Absent keys read
as null. -/
abbrev Row := List (String × Value)

/-- Read a cell; a missing key is an implicit null (pandas NaN fill). -/
def Row.get (r : Row) (c : String) : Value :=
  match r.find? (fun p => p.1 = c) with
  | some p => p.2
  | none => Value.null

/-- Write a cell: replace every entry under key `c`, or append a fresh entry
when the row has none (pandas column assignment). -/
def Row.set (r : Row) (c : String) (v : Value) : Row :=
  if r.any (fun p => p.1 = c) then
    r.map (fun p => if p.1 = c then (c, v) else p)
  else
    r ++ [(c, v)]

/-- Rename the keys of a row by a column-renaming function. -/
def Row.mapKeys (f : String → String) (r : Row) : Row :=
  r.map (fun p => (f p.1, p.2))

/-- A pandas DataFrame: ordered column labels plus rows. -/
structure DataFrame where
  cols : List String
  rows : List Row
  deriving DecidableEq, Repr

/-- `pd.DataFrame()`: the empty frame. -/
def DataFrame.empty : DataFrame := ⟨[], []⟩

/-- Column membership (`c in df.columns`). -/
def DataFrame.hasCol (df : DataFrame) (c : String) : Bool :=
  df.cols.contains c

/-- `df.empty`: true when either axis has length zero. -/
def DataFrame.isEmpty (df : DataFrame) : Bool :=
  df.rows.isEmpty || df.cols.isEmpty

/-- Append a column label if it is not already present. -/
def addCol (cols : List String) (c : String) : List String :=
  if cols.contains c then cols else cols ++ [c]

/-- `df['c'] = f(row)`: assign a column computed row-wise from the current
frame. -/
def DataFrame.setColWith (df : DataFrame) (c : String) (f : Row → Value) :
    DataFrame :=
  ⟨addCol df.cols c, df.rows.map (fun r => r.set c (f r))⟩

/-- `df[mask]`: keep the rows satisfying a predicate (columns unchanged). -/
def DataFrame.filterRows (df : DataFrame) (p : Row → Bool) : DataFrame :=
  ⟨df.cols, df.rows.filter p⟩

/-- The fixed rename mapping of `transform_data` (`column_map` in the
source); names outside the mapping pass through unchanged. -/
def columnMap (c : String) : String :=
  if c = "ORDERDATE" then "SaleDate"
  else if c = "PRODUCTCODE" then "Item"
  else if c = "QUANTITYORDERED" then "Quantity"
  else if c = "PRICEEACH" then "Price"
  else if c = "PRODUCTLINE" then "Category"
  else c

/-- `df.rename(columns=column_map)`: a fresh frame with renamed labels. -/
def DataFrame.renameCols (df : DataFrame) : DataFrame :=
  ⟨df.cols.map columnMap, df.rows.map (Row.mapKeys columnMap)⟩

/-- Decimal digit value of a character, if any. -/
def digitVal (ch : Char) : Option Nat :=
  if ch.isDigit then some (ch.toNat - 48) else none

/-- Parse a run of decimal digits into its value and length. -/
def parseDigits : List Char → Option (Nat × Nat)
  | [] => none
  | ch :: rest =>
    match digitVal ch with
    | none => none
    | some d =>
      match parseDigits rest with
      | none => if rest = [] then some (d, 1) else none
      | some (n, k) => some (d * 10 ^ k + n, k + 1)

/-- Parse an unsigned decimal literal: digits, optionally a dot and more
digits. -/
def parseUnsigned (body : List Char) : Option ℚ :=
  match body.splitOn '.' with
  | [intPart] =>
    match parseDigits intPart with
    | some (n, _) => some (n : ℚ)
    | none => none
  | [intPart, fracPart] =>
    match parseDigits intPart, parseDigits fracPart with
    | some (n, _), some (m, k) => some ((n : ℚ) + (m : ℚ) / (10 ^ k : ℚ))
    | _, _ => none
  | _ => none

/-- The numeric reading of one cell, when it has one: numbers pass
through, numeric strings (optional sign, optional decimal point) parse,
everything else—including nulls and datetimes—has none. -/
def parseNumV (v : Value) : Option ℚ :=
  match v with
  | Value.num q => some q
  | Value.str s =>
    match s.toList with
    | '-' :: rest => (parseUnsigned rest).map (fun q => -q)
    | '+' :: rest => parseUnsigned rest
    | chars => parseUnsigned chars
  | _ => none

/-- Model of `pd.to_numeric(·, errors='coerce')` on one cell: a cell with
no numeric reading coerces to null, never raising. -/
def parseNum (v : Value) : Value :=
  match parseNumV v with
  | some q => Value.num q
  | none => Value.null

/-- The datetime reading of a string, when it has one (`YYYY-MM-DD`). -/
def parseDateStr (s : String) : Option Int :=
  match s.toList with
  | [y1, y2, y3, y4, '-', m1, m2, '-', d1, d2] =>
    match digitVal y1, digitVal y2, digitVal y3, digitVal y4,
          digitVal m1, digitVal m2, digitVal d1, digitVal d2 with
    | some a, some b, some c, some d, some e, some f, some g, some h =>
      let year := a * 1000 + b * 100 + c * 10 + d
      let month := e * 10 + f
      let day := g * 10 + h
      if 1 ≤ month ∧ month ≤ 12 ∧ 1 ≤ day ∧ day ≤ 31 then
        some ((year * 10000 + month * 100 + day : Nat) : Int)
      else none
    | _, _, _, _, _, _, _, _ => none
  | _ => none

/-- The datetime reading of one cell, when it has one. -/
def parseDateV (v : Value) : Option Int :=
  match v with
  | Value.date d => some d
  | Value.str s => parseDateStr s
  | _ => none

/-- Model of `pd.to_datetime(·, errors='coerce')` on one cell: a cell with
no datetime reading coerces to null (NaT), never raising. -/
def parseDate (v : Value) : Value :=
  match parseDateV v with
  | some d => Value.date d
  | none => Value.null

/-- Render a value as Python `str(...)` does during `.astype(str)`: the
crucial case is that a null cell stringifies to the literal text "nan"
(float NaN) rather than staying null. -/
def astypeStr (v : Value) : Value :=
  match v with
  | Value.null => Value.str "nan"
  | Value.str s => Value.str s
  | Value.num q => Value.str (toString q)
  | Value.date d => Value.str (toString d)

/-- `.fillna('Unknown')` on one cell. -/
def fillnaUnknown (v : Value) : Value :=
  match v with
  | Value.null => Value.str "Unknown"
  | _ => v

/-- Elementwise product of two cells (`df['Quantity'] * df['Price']`); any
non-numeric operand yields null. -/
def mulV (a b : Value) : Value :=
  match a, b with
  | Value.num x, Value.num y => Value.num (x * y)
  | _, _ => Value.null

/-- `df['STATUS'].isin(['Shipped', 'Resolved'])` for one row. -/
def statusOK (r : Row) : Bool :=
  r.get "STATUS" = Value.str "Shipped" || r.get "STATUS" = Value.str "Resolved"

/-- The four required fields of the completeness check. -/
def requiredCols : List String := ["SaleDate", "Item", "Quantity", "Price"]

/-- A row passes `dropna(subset=requiredCols)` when none of the four
required cells is null. -/
def rowComplete (r : Row) : Bool :=
  requiredCols.all (fun c => r.get c ≠ Value.null)

/-- The projection list of the final step (`final_cols` in the source). -/
def finalCols : List String :=
  ["SaleDate", "Item", "Quantity", "Price", "Category", "TotalSales",
   "source_file"]

/-- `df[sel]` column projection: keep exactly the selected columns, in the
selection's order, materialising each cell (missing cells read as null). -/
def DataFrame.selectCols (df : DataFrame) (sel : List String) : DataFrame :=
  ⟨sel, df.rows.map (fun r => sel.map (fun c => (c, r.get c)))⟩

/-- `df['SaleDate'] = pd.to_datetime(df.get('SaleDate'), errors='coerce')`:
when the column is absent, `df.get` yields `None` and the coerced scalar NaT
broadcasts as null to every row. -/
def coerceDates (d : DataFrame) : DataFrame :=
  d.setColWith "SaleDate"
    (fun r => if d.hasCol "SaleDate" then parseDate (r.get "SaleDate")
              else Value.null)

/-- `df['Quantity'] = pd.to_numeric(df.get('Quantity'), errors='coerce')`. -/
def coerceQuantity (d : DataFrame) : DataFrame :=
  d.setColWith "Quantity"
    (fun r => if d.hasCol "Quantity" then parseNum (r.get "Quantity")
              else Value.null)

/-- `df['Price'] = pd.to_numeric(df.get('Price'), errors='coerce')`. -/
def coercePrice (d : DataFrame) : DataFrame :=
  d.setColWith "Price"
    (fun r => if d.hasCol "Price" then parseNum (r.get "Price")
              else Value.null)

/-- The column-present case of
`df['Category'] = df.get('Category', 'Unknown').astype(str).fillna('Unknown')`:
`.astype(str)` stringifies every cell (nulls become the text "nan"), and
only then does `.fillna` look for nulls, finding none. -/
def coerceCategory (d : DataFrame) : DataFrame :=
  d.setColWith "Category"
    (fun r => fillnaUnknown (astypeStr (r.get "Category")))

/-- `df = df[df['STATUS'].isin(['Shipped', 'Resolved'])]`. -/
def filterStatus (d : DataFrame) : DataFrame :=
  d.filterRows statusOK

/-- `df.dropna(subset=['SaleDate', 'Item', 'Quantity', 'Price'],
inplace=True)` (as a function of the frame value). -/
def dropIncomplete (d : DataFrame) : DataFrame :=
  d.filterRows rowComplete

/-- `df['TotalSales'] = df['Quantity'] * df['Price']`. -/
def addTotalSales (d : DataFrame) : DataFrame :=
  d.setColWith "TotalSales"
    (fun r => mulV (r.get "Quantity") (r.get "Price"))

/-- `df[[col for col in final_cols if col in df.columns]]`. -/
def project (d : DataFrame) : DataFrame :=
  d.selectCols (finalCols.filter d.hasCol)

/-- `transform_data(df)` from `src/etl_pipeline.py`, step for step.  The
`Except` layer carries the exceptions pandas raises: `.astype` called on the
*string* default `'Unknown'` when the `Category` column is absent
(AttributeError), `df['STATUS']` on a missing column (KeyError), and
`dropna(subset=...)` with a label not in the frame (KeyError). -/
def transform_data (df : DataFrame) : Except String DataFrame :=
  if df.isEmpty then Except.ok df
  else
    let d3 := coercePrice (coerceQuantity (coerceDates df.renameCols))
    if d3.hasCol "Category" then
      let d4 := coerceCategory d3
      if d4.hasCol "STATUS" then
        let d5 := filterStatus d4
        if requiredCols.all d5.hasCol then
          let d6 := dropIncomplete d5
          if d6.isEmpty then Except.ok d6
          else Except.ok (project (addTotalSales d6))
        else Except.error "KeyError: dropna subset column not found"
      else Except.error "KeyError: STATUS"
    else
      Except.error
        "AttributeError: str object has no attribute astype"

/-- The image of one row under the coercion stages (rename, date and
numeric coercion, category stringify-and-fillna).  The presence flags
mirror `df.get`'s column lookups, which depend only on the frame's column
set, so the whole coercion acts row-wise. -/
def coerceRow (df : DataFrame) (r : Row) : Row :=
  let d0 := df.renameCols
  let d1 := coerceDates d0
  let d2 := coerceQuantity d1
  let r0 := Row.mapKeys columnMap r
  let r1 := r0.set "SaleDate"
    (if d0.hasCol "SaleDate" then parseDate (r0.get "SaleDate")
     else Value.null)
  let r2 := r1.set "Quantity"
    (if d1.hasCol "Quantity" then parseNum (r1.get "Quantity")
     else Value.null)
  let r3 := r2.set "Price"
    (if d2.hasCol "Price" then parseNum (r2.get "Price")
     else Value.null)
  r3.set "Category" (fillnaUnknown (astypeStr (r3.get "Category")))

/-- The column list of the frame reaching the final projection, as a
function of the input frame's columns. -/
def outColsOf (df : DataFrame) : List String :=
  finalCols.filter
    (addTotalSales (coerceCategory
      (coercePrice (coerceQuantity (coerceDates df.renameCols))))).hasCol

/-- The fate of one input row through the row pipeline of
`transform_data`: `none` when the status filter or the completeness check
drops it, otherwise the projected output row. -/
def stepFn (df : DataFrame) (r : Row) : Option Row :=
  let r4 := coerceRow df r
  if statusOK r4 && rowComplete r4 then
    let r5 := r4.set "TotalSales" (mulV (r4.get "Quantity") (r4.get "Price"))
    some ((outColsOf df).map (fun c => (c, r5.get c)))
  else none

/-- A parsed input file: its path and the frame `pd.read_csv` produced
from it (text decoding, with its UTF-8 then Latin-1 fallback, is I/O and
is abstracted into the already-parsed frame). -/
structure CsvFile where
  path : String
  frame : DataFrame
  deriving DecidableEq, Repr

/-- Characters up to the first slash (used on a reversed path). -/
def upToSlash : List Char → List Char
  | [] => []
  | c :: rest => if c = '/' then [] else c :: upToSlash rest

/-- `os.path.basename`: the part of the path after the last slash. -/
def basename (p : String) : String :=
  String.mk ((upToSlash p.data.reverse).reverse)

/-- `df['source_file'] = os.path.basename(file)`: tag every row of one
file's frame with the file's base name. -/
def tagSource (f : CsvFile) : DataFrame :=
  f.frame.setColWith "source_file" (fun _ => Value.str (basename f.path))

/-- `pd.concat(frames, ignore_index=True)`: rows concatenated in order;
the column set is the union of the frames' columns in order of first
appearance; a row lacking one of the union's columns implicitly reads as
null there (`Row.get` of a missing key). -/
def concatFrames (dfs : List DataFrame) : DataFrame :=
  ⟨dfs.foldl (fun acc d => acc ++ d.cols.filter (fun c => !acc.contains c)) [],
   (dfs.map DataFrame.rows).flatten⟩

/-- `load_data(file_paths)` from `src/etl_pipeline.py`: tag each parsed
frame with its source file and concatenate; with no files, return
`pd.DataFrame()`. -/
def load_data (files : List CsvFile) : DataFrame :=
  let data_frames := files.map tagSource
  if data_frames.isEmpty then DataFrame.empty
  else concatFrames data_frames

/-- The persistent state the sink stage can touch: the contents of the
`sales` database table (if it was ever written) and of the flat export
file. -/
structure Sinks where
  dbTable : Option DataFrame
  exportFile : Option DataFrame
  deriving DecidableEq, Repr

/-- `df.to_sql(table, con=engine, if_exists='replace', index=False)`:
replace the destination table's whole contents.  `fail` injects an
arbitrary failure of the underlying write (connectivity, schema mismatch,
disk), which surfaces as an exception carrying its message. -/
def to_sql (df : DataFrame) (fail : Option String) (_db : Option DataFrame) :
    Except String (Option DataFrame) :=
  match fail with
  | some e => Except.error e
  | none => Except.ok (some df)

/-- `load_to_database(df, table_name, engine)` from `src/etl_pipeline.py`:
return early on an empty frame, otherwise attempt the write inside
`try/except Exception`, logging either success or the failure's cause.
The result is the new table contents plus the log lines emitted; the
`Except.error` case of the return type is never used because every
exception of the write is caught. -/
def load_to_database (df : DataFrame) (fail : Option String)
    (db : Option DataFrame) :
    Except String (Option DataFrame × List String) :=
  if df.isEmpty then
    Except.ok (db, ["Transformed data is empty, skipping database load."])
  else
    match to_sql df fail db with
    | Except.ok db' =>
      Except.ok (db', ["Successfully loaded rows into sales table."])
    | Except.error e =>
      Except.ok (db, ["Failed to load data to database: " ++ e])

/-- `main()` from `src/etl_pipeline.py`.  File discovery is abstracted as
the list of files found; `dbFail` injects a database-write failure.
Returns the updated sink state and the warnings/infos logged, or the
uncaught exception aborting the run. -/
def main (files : List CsvFile) (dbFail : Option String) (st : Sinks) :
    Except String (Sinks × List String) :=
  if files.isEmpty then Except.ok (st, ["No CSV files found."])
  else
    let raw := load_data files
    match transform_data raw with
    | Except.error e => Except.error e
    | Except.ok t =>
      match load_to_database t dbFail st.dbTable with
      | Except.error e => Except.error e
      | Except.ok (db', logs) =>
        if t.isEmpty then Except.ok ({ st with dbTable := db' }, logs)
        else
          Except.ok (⟨db', some t⟩,
                     logs ++ ["Successfully saved transformed data."])

/-- A heap of DataFrame objects: which pandas object each id denotes, and
the next fresh id.  Used to make explicit which objects the imperative
statements of `transform_data` mutate in place. -/
structure Heap where
  mem : Nat → DataFrame
  next : Nat

/-- Allocate a fresh frame object. -/
def Heap.alloc (h : Heap) (d : DataFrame) : Heap × Nat :=
  (⟨fun i => if i = h.next then d else h.mem i, h.next + 1⟩, h.next)

/-- Overwrite the frame object `i` denotes (an in-place pandas update). -/
def Heap.write (h : Heap) (i : Nat) (d : DataFrame) : Heap :=
  ⟨fun j => if j = i then d else h.mem j, h.next⟩

/-- `transform_data` again, statement by statement, with the pandas object
graph explicit: `df.rename(...)`, the boolean-mask selection and the final
column selection allocate new frames (rebinding the local `df`), while
column assignments and `dropna(..., inplace=True)` mutate the frame the
local `df` currently denotes; the empty path returns the caller's object
itself. -/
def transformHeap (h : Heap) (i : Nat) : Heap × Except String Nat :=
  if (h.mem i).isEmpty then (h, Except.ok i)
  else
    let p1 := h.alloc (h.mem i).renameCols
    let h1 := p1.1
    let j := p1.2
    let h2 := h1.write j (coerceDates (h1.mem j))
    let h3 := h2.write j (coerceQuantity (h2.mem j))
    let h4 := h3.write j (coercePrice (h3.mem j))
    if (h4.mem j).hasCol "Category" then
      let h5 := h4.write j (coerceCategory (h4.mem j))
      if (h5.mem j).hasCol "STATUS" then
        let p2 := h5.alloc (filterStatus (h5.mem j))
        let h6 := p2.1
        let k := p2.2
        if requiredCols.all (h6.mem k).hasCol then
          let h7 := h6.write k (dropIncomplete (h6.mem k))
          if (h7.mem k).isEmpty then (h7, Except.ok k)
          else
            let h8 := h7.write k (addTotalSales (h7.mem k))
            let p3 := h8.alloc (project (h8.mem k))
            (p3.1, Except.ok p3.2)
        else (h6, Except.error "KeyError: dropna subset column not found")
      else (h5, Except.error "KeyError: STATUS")
    else
      (h4, Except.error "AttributeError: str object has no attribute astype")

/-! ## Concrete frames used to exercise the pipeline -/

/-- Scenario A input: a single well-formed row with STATUS "Shipped",
Quantity 2, Price 3.5. -/
def scenarioAIn : DataFrame :=
  ⟨["ORDERDATE", "PRODUCTCODE", "QUANTITYORDERED", "PRICEEACH",
    "PRODUCTLINE", "STATUS", "source_file"],
   [[("ORDERDATE", Value.str "2024-01-15"), ("PRODUCTCODE", Value.str "P1"),
     ("QUANTITYORDERED", Value.num 2), ("PRICEEACH", Value.num (7/2)),
     ("PRODUCTLINE", Value.str "Bikes"), ("STATUS", Value.str "Shipped"),
     ("source_file", Value.str "a.csv")]]⟩

/-- The canonical record scenario A produces. -/
def scenarioARow : Row :=
  [("SaleDate", Value.date 20240115), ("Item", Value.str "P1"),
   ("Quantity", Value.num 2), ("Price", Value.num (7/2)),
   ("Category", Value.str "Bikes"), ("TotalSales", Value.num 7),
   ("source_file", Value.str "a.csv")]

/-- Scenario A output: one row, TotalSales 7. -/
def scenarioAOut : DataFrame :=
  ⟨["SaleDate", "Item", "Quantity", "Price", "Category", "TotalSales",
    "source_file"], [scenarioARow]⟩

/-- A cancelled-status row (scenario B). -/
def demoCancelledRow : Row :=
  [("ORDERDATE", Value.str "2024-02-20"), ("PRODUCTCODE", Value.str "P2"),
   ("QUANTITYORDERED", Value.num 5), ("PRICEEACH", Value.num 4),
   ("PRODUCTLINE", Value.str "Bikes"), ("STATUS", Value.str "Cancelled"),
   ("source_file", Value.str "a.csv")]

/-- A row whose ORDERDATE does not parse as a date (scenario C). -/
def demoBadDateRow : Row :=
  [("ORDERDATE", Value.str "not-a-date"), ("PRODUCTCODE", Value.str "P3"),
   ("QUANTITYORDERED", Value.num 1), ("PRICEEACH", Value.num 2),
   ("PRODUCTLINE", Value.str "Bikes"), ("STATUS", Value.str "Shipped"),
   ("source_file", Value.str "a.csv")]

/-- Three rows: well-formed, cancelled status, unparsable date. -/
def demoIn : DataFrame :=
  ⟨["ORDERDATE", "PRODUCTCODE", "QUANTITYORDERED", "PRICEEACH",
    "PRODUCTLINE", "STATUS", "source_file"],
   [[("ORDERDATE", Value.str "2024-01-15"), ("PRODUCTCODE", Value.str "P1"),
     ("QUANTITYORDERED", Value.num 2), ("PRICEEACH", Value.num (7/2)),
     ("PRODUCTLINE", Value.str "Bikes"), ("STATUS", Value.str "Shipped"),
     ("source_file", Value.str "a.csv")],
    demoCancelledRow, demoBadDateRow]⟩

/-- Only the well-formed row survives the transform of `demoIn`. -/
def demoOut : DataFrame :=
  ⟨["SaleDate", "Item", "Quantity", "Price", "Category", "TotalSales",
    "source_file"], [scenarioARow]⟩

/-- A row whose Category source column holds a null. -/
def c1NullCatIn : DataFrame :=
  ⟨["ORDERDATE", "PRODUCTCODE", "QUANTITYORDERED", "PRICEEACH",
    "PRODUCTLINE", "STATUS", "source_file"],
   [[("ORDERDATE", Value.str "2024-01-15"), ("PRODUCTCODE", Value.str "P1"),
     ("QUANTITYORDERED", Value.num 2), ("PRICEEACH", Value.num 3),
     ("PRODUCTLINE", Value.null), ("STATUS", Value.str "Shipped"),
     ("source_file", Value.str "a.csv")]]⟩

/-- What the code actually produces for `c1NullCatIn`: the null Category
comes out as the string "nan". -/
def c1NullCatOut : DataFrame :=
  ⟨["SaleDate", "Item", "Quantity", "Price", "Category", "TotalSales",
    "source_file"],
   [[("SaleDate", Value.date 20240115), ("Item", Value.str "P1"),
     ("Quantity", Value.num 2), ("Price", Value.num 3),
     ("Category", Value.str "nan"), ("TotalSales", Value.num 6),
     ("source_file", Value.str "a.csv")]]⟩

/-- A well-formed input with no Category source column at all. -/
def c1NoCatIn : DataFrame :=
  ⟨["ORDERDATE", "PRODUCTCODE", "QUANTITYORDERED", "PRICEEACH",
    "STATUS", "source_file"],
   [[("ORDERDATE", Value.str "2024-01-15"), ("PRODUCTCODE", Value.str "P1"),
     ("QUANTITYORDERED", Value.num 2), ("PRICEEACH", Value.num 3),
     ("STATUS", Value.str "Shipped"), ("source_file", Value.str "a.csv")]]⟩

/-- A well-formed input whose STATUS column is entirely absent. -/
def c7NoStatusIn : DataFrame :=
  ⟨["ORDERDATE", "PRODUCTCODE", "QUANTITYORDERED", "PRICEEACH",
    "PRODUCTLINE", "source_file"],
   [[("ORDERDATE", Value.str "2024-01-15"), ("PRODUCTCODE", Value.str "P1"),
     ("QUANTITYORDERED", Value.num 2), ("PRICEEACH", Value.num 3),
     ("PRODUCTLINE", Value.str "Bikes"),
     ("source_file", Value.str "a.csv")]]⟩

/-- Two small parsed input files with different column sets. -/
def fileA : CsvFile :=
  ⟨"./data/input/a.csv",
   ⟨["ORDERDATE", "STATUS"],
    [[("ORDERDATE", Value.str "2024-01-15"),
      ("STATUS", Value.str "Shipped")]]⟩⟩

/-- A second file, Latin-1 in the original scenario, with an extra
column. -/
def fileB : CsvFile :=
  ⟨"./data/input/b.csv",
   ⟨["ORDERDATE", "STATUS", "PRICEEACH"],
    [[("ORDERDATE", Value.str "2024-02-20"),
      ("STATUS", Value.str "Resolved"), ("PRICEEACH", Value.num 4)],
     [("ORDERDATE", Value.str "2024-02-21"),
      ("STATUS", Value.str "Shipped"), ("PRICEEACH", Value.num 5)]]⟩⟩

/-- A single file carrying every source column, for end-to-end runs. -/
def fullFile : CsvFile :=
  ⟨"./data/input/full.csv",
   ⟨["ORDERDATE", "PRODUCTCODE", "QUANTITYORDERED", "PRICEEACH",
     "PRODUCTLINE", "STATUS"],
    [[("ORDERDATE", Value.str "2024-01-15"),
      ("PRODUCTCODE", Value.str "P1"), ("QUANTITYORDERED", Value.num 2),
      ("PRICEEACH", Value.num (7/2)), ("PRODUCTLINE", Value.str "Bikes"),
      ("STATUS", Value.str "Shipped")]]⟩⟩

/-- The canonical table an end-to-end run over `fullFile` produces. -/
def fullOut : DataFrame :=
  ⟨["SaleDate", "Item", "Quantity", "Price", "Category", "TotalSales",
    "source_file"],
   [[("SaleDate", Value.date 20240115), ("Item", Value.str "P1"),
     ("Quantity", Value.num 2), ("Price", Value.num (7/2)),
     ("Category", Value.str "Bikes"), ("TotalSales", Value.num 7),
     ("source_file", Value.str "full.csv")]]⟩

/-- A file that parses to columns but zero rows. -/
def headerOnlyFile : CsvFile :=
  ⟨"./data/input/header.csv", ⟨["ORDERDATE", "STATUS"], []⟩⟩

/-! ## Basic lemmas about rows and columns -/

theorem Row.get_cons (p : String × Value) (r : Row) (c : String) :
    Row.get (p :: r) c = if p.1 = c then p.2 else Row.get r c := by
  by_cases h : p.1 = c
  · unfold Row.get
    rw [List.find?_cons_of_pos _ (by simp [h])]
    simp [h]
  · unfold Row.get
    rw [List.find?_cons_of_neg _ (by simp [h])]
    simp [h]

theorem Row.get_mapset_same (r : Row) (c : String) (v : Value)
    (h : r.any (fun p => p.1 = c) = true) :
    Row.get (r.map (fun p => if p.1 = c then (c, v) else p)) c = v := by
  induction r with
  | nil => simp at h
  | cons p r ih =>
    simp only [List.any_cons, Bool.or_eq_true, decide_eq_true_eq] at h
    by_cases hp : p.1 = c
    · simp [Row.get_cons, hp]
    · rw [List.map_cons, if_neg hp, Row.get_cons, if_neg hp]
      exact ih (h.resolve_left hp)

theorem Row.get_mapset_ne (r : Row) (c c' : String) (v : Value)
    (hne : c' ≠ c) :
    Row.get (r.map (fun p => if p.1 = c then (c, v) else p)) c' =
      Row.get r c' := by
  induction r with
  | nil => rfl
  | cons p r ih =>
    by_cases hp : p.1 = c
    · rw [List.map_cons, if_pos hp, Row.get_cons, Row.get_cons,
        if_neg (fun h => hne h.symm), if_neg (fun h => hne (hp ▸ h).symm)]
      exact ih
    · rw [List.map_cons, if_neg hp, Row.get_cons, Row.get_cons]
      by_cases hp' : p.1 = c' <;> simp [hp', ih]

theorem Row.get_append_single_ne (r : Row) (c c' : String) (v : Value)
    (hne : c' ≠ c) :
    Row.get (r ++ [(c, v)]) c' = Row.get r c' := by
  unfold Row.get
  rw [List.find?_append]
  have hcc : ¬ c = c' := fun h => hne h.symm
  have : List.find? (fun p => decide (p.1 = c')) [(c, v)] = none := by
    simp [hcc]
  rw [this]
  cases List.find? (fun p => decide (p.1 = c')) r <;> rfl

theorem Row.get_set_self (r : Row) (c : String) (v : Value) :
    Row.get (Row.set r c v) c = v := by
  unfold Row.set
  split
  · exact Row.get_mapset_same r c v (by assumption)
  · next h =>
    unfold Row.get
    rw [List.find?_append]
    have hnone : List.find? (fun p => decide (p.1 = c)) r = none := by
      rw [List.find?_eq_none]
      intro x hx
      simp only [decide_eq_true_eq]
      intro hxc
      exact h (List.any_eq_true.mpr ⟨x, hx, by simp [hxc]⟩)
    rw [hnone]
    simp

theorem Row.get_set_ne (r : Row) (c c' : String) (v : Value)
    (hne : c' ≠ c) :
    Row.get (Row.set r c v) c' = Row.get r c' := by
  unfold Row.set
  split
  · exact Row.get_mapset_ne r c c' v hne
  · exact Row.get_append_single_ne r c c' v hne

theorem Row.get_of_no_key (r : Row) (c : String)
    (h : ∀ p ∈ r, p.1 ≠ c) : Row.get r c = Value.null := by
  unfold Row.get
  rw [List.find?_eq_none.mpr (by simpa using h)]

theorem Row.get_proj (sel : List String) (g : String → Value) (c : String) :
    Row.get (sel.map (fun c => (c, g c))) c =
      if c ∈ sel then g c else Value.null := by
  induction sel with
  | nil => rfl
  | cons s sel ih =>
    rw [List.map_cons, Row.get_cons]
    by_cases h : s = c
    · simp [h]
    · have hcs : ¬ c = s := fun hc => h hc.symm
      simp only [if_neg h, ih, List.mem_cons]
      by_cases h' : c ∈ sel <;> simp [h', hcs]

theorem columnMap_eq_iff (c s : String)
    (h1 : s ≠ "SaleDate") (h2 : s ≠ "Item") (h3 : s ≠ "Quantity")
    (h4 : s ≠ "Price") (h5 : s ≠ "Category")
    (h6 : s ≠ "ORDERDATE") (h7 : s ≠ "PRODUCTCODE")
    (h8 : s ≠ "QUANTITYORDERED") (h9 : s ≠ "PRICEEACH")
    (h10 : s ≠ "PRODUCTLINE") :
    columnMap c = s ↔ c = s := by
  unfold columnMap
  split
  · next h => subst h
              exact iff_of_false (fun hx => h1 hx.symm) (fun hx => h6 hx.symm)
  · split
    · next h => subst h
                exact iff_of_false (fun hx => h2 hx.symm)
                  (fun hx => h7 hx.symm)
    · split
      · next h => subst h
                  exact iff_of_false (fun hx => h3 hx.symm)
                    (fun hx => h8 hx.symm)
      · split
        · next h => subst h
                    exact iff_of_false (fun hx => h4 hx.symm)
                      (fun hx => h9 hx.symm)
        · split
          · next h => subst h
                      exact iff_of_false (fun hx => h5 hx.symm)
                        (fun hx => h10 hx.symm)
          · exact Iff.rfl

theorem Row.get_mapKeys_of_fixed (f : String → String) (c : String)
    (hf : ∀ k, f k = c ↔ k = c) (r : Row) :
    Row.get (Row.mapKeys f r) c = Row.get r c := by
  induction r with
  | nil => rfl
  | cons p r ih =>
    unfold Row.mapKeys
    rw [List.map_cons, Row.get_cons, Row.get_cons]
    simp only [Row.mapKeys] at ih
    by_cases h : p.1 = c
    · rw [if_pos ((hf p.1).mpr h), if_pos h]
    · rw [if_neg (fun hx => h ((hf p.1).mp hx)), if_neg h]
      exact ih

theorem mem_addCol (l : List String) (c a : String) :
    a ∈ addCol l c ↔ a ∈ l ∨ a = c := by
  unfold addCol
  split
  · next h =>
    constructor
    · exact Or.inl
    · rintro (ha | rfl)
      · exact ha
      · exact List.elem_iff.mp h
  · simp

theorem addCol_ne_nil (l : List String) (c : String) : addCol l c ≠ [] := by
  unfold addCol
  split
  · next h =>
    intro hl
    subst hl
    simp at h
  · simp

/-! ## Decomposition of the transform into a per-row pipeline -/

theorem filterMap_pipeline {α β γ : Type} (f : α → β) (p1 p2 : β → Bool)
    (g : β → γ) (l : List α) :
    (((l.map f).filter p1).filter p2).map g
      = l.filterMap
          (fun a => if p1 (f a) && p2 (f a) then some (g (f a)) else none) := by
  induction l with
  | nil => rfl
  | cons a l ih =>
    rw [List.map_cons, List.filter_cons]
    by_cases h1 : p1 (f a)
    · rw [if_pos h1, List.filter_cons]
      by_cases h2 : p2 (f a)
      · rw [if_pos h2, List.map_cons, ih, List.filterMap_cons]
        simp [h1, h2]
      · rw [if_neg h2, ih, List.filterMap_cons]
        simp [h1, h2]
    · rw [if_neg h1, ih, List.filterMap_cons]
      simp [h1]

theorem coerce_rows (df : DataFrame) :
    (coerceCategory (coercePrice (coerceQuantity
      (coerceDates df.renameCols)))).rows = df.rows.map (coerceRow df) := by
  simp only [coerceCategory, coercePrice, coerceQuantity, coerceDates,
    DataFrame.setColWith, DataFrame.renameCols, List.map_map]
  rfl

/-- The frame reaching the completeness drop, spelled out. -/
def droppedFrame (df : DataFrame) : DataFrame :=
  dropIncomplete (filterStatus (coerceCategory
    (coercePrice (coerceQuantity (coerceDates df.renameCols)))))

theorem droppedFrame_rows (df : DataFrame) :
    (droppedFrame df).rows
      = ((df.rows.map (coerceRow df)).filter statusOK).filter rowComplete := by
  simp only [droppedFrame, dropIncomplete, filterStatus,
    DataFrame.filterRows, coerce_rows]

theorem droppedFrame_rows_empty (df : DataFrame)
    (hemp : (droppedFrame df).isEmpty = true) :
    (droppedFrame df).rows = [] := by
  have hcols : (droppedFrame df).cols.isEmpty = false := by
    have hne : (droppedFrame df).cols ≠ [] := addCol_ne_nil _ _
    simpa [List.isEmpty_iff] using hne
  simpa [DataFrame.isEmpty, hcols, List.isEmpty_iff] using hemp

theorem transform_ok_rows (df out : DataFrame)
    (hok : transform_data df = Except.ok out)
    (hne : df.isEmpty = false) :
    out.rows = df.rows.filterMap (stepFn df) := by
  have hpipe : df.rows.filterMap (stepFn df)
      = (((df.rows.map (coerceRow df)).filter statusOK).filter
          rowComplete).map
          (fun r4 => (outColsOf df).map
            (fun c => (c, Row.get
              (r4.set "TotalSales"
                (mulV (r4.get "Quantity") (r4.get "Price"))) c))) :=
    (filterMap_pipeline (coerceRow df) statusOK rowComplete
      (fun r4 => (outColsOf df).map
        (fun c => (c, Row.get
          (r4.set "TotalSales"
            (mulV (r4.get "Quantity") (r4.get "Price"))) c)))
      df.rows).symm
  unfold transform_data at hok
  rw [hne] at hok
  simp only [Bool.false_eq_true, if_false] at hok
  split at hok
  · split at hok
    · split at hok
      · split at hok
        · -- empty after cleaning: the returned frame has no rows
          next hemp =>
          simp only [Except.ok.injEq] at hok
          subst hok
          have hemp' : (droppedFrame df).isEmpty = true := hemp
          show (droppedFrame df).rows = _
          rw [droppedFrame_rows_empty df hemp', hpipe]
          have := droppedFrame_rows_empty df hemp'
          rw [droppedFrame_rows] at this
          rw [this]
          rfl
        · -- the main path: project (addTotalSales d6)
          simp only [Except.ok.injEq] at hok
          subst hok
          show (project (addTotalSales (droppedFrame df))).rows = _
          rw [hpipe]
          simp only [project, addTotalSales, DataFrame.selectCols,
            DataFrame.setColWith, droppedFrame_rows, List.map_map]
          rfl
      · exact absurd hok (by simp)
    · exact absurd hok (by simp)
  · exact absurd hok (by simp)

/-! ## Row-level facts about the coercions -/

theorem parseNum_num_or_null (v : Value) :
    (∃ q, parseNum v = Value.num q) ∨ parseNum v = Value.null := by
  unfold parseNum
  rcases h : parseNumV v with _ | q <;> simp [h]

theorem parseDate_date_or_null (v : Value) :
    (∃ d, parseDate v = Value.date d) ∨ parseDate v = Value.null := by
  unfold parseDate
  rcases h : parseDateV v with _ | d <;> simp [h]

theorem coerceRow_get_status (df : DataFrame) (r : Row) :
    Row.get (coerceRow df r) "STATUS" = Row.get r "STATUS" := by
  simp only [coerceRow]
  rw [Row.get_set_ne _ _ _ _ (by decide), Row.get_set_ne _ _ _ _ (by decide),
    Row.get_set_ne _ _ _ _ (by decide), Row.get_set_ne _ _ _ _ (by decide)]
  exact Row.get_mapKeys_of_fixed columnMap "STATUS"
    (fun k => columnMap_eq_iff k "STATUS" (by decide) (by decide) (by decide)
      (by decide) (by decide) (by decide) (by decide) (by decide) (by decide)
      (by decide)) r

theorem coerceRow_get_quantity (df : DataFrame) (r : Row) :
    (∃ q, Row.get (coerceRow df r) "Quantity" = Value.num q) ∨
      Row.get (coerceRow df r) "Quantity" = Value.null := by
  simp only [coerceRow]
  rw [Row.get_set_ne _ _ _ _ (by decide), Row.get_set_ne _ _ _ _ (by decide),
    Row.get_set_self]
  split
  · exact parseNum_num_or_null _
  · exact Or.inr rfl

theorem coerceRow_get_price (df : DataFrame) (r : Row) :
    (∃ q, Row.get (coerceRow df r) "Price" = Value.num q) ∨
      Row.get (coerceRow df r) "Price" = Value.null := by
  simp only [coerceRow]
  rw [Row.get_set_ne _ _ _ _ (by decide), Row.get_set_self]
  split
  · exact parseNum_num_or_null _
  · exact Or.inr rfl

/-! ## Facts about the projected column set -/

theorem mem_stageCols (df : DataFrame) (c : String) :
    (c ∈ (addTotalSales (coerceCategory (coercePrice (coerceQuantity
        (coerceDates df.renameCols))))).cols)
      ↔ ((∃ a ∈ df.cols, columnMap a = c) ∨ c = "SaleDate" ∨ c = "Quantity"
          ∨ c = "Price" ∨ c = "Category" ∨ c = "TotalSales") := by
  show c ∈ addCol (addCol (addCol (addCol (addCol
      (df.cols.map columnMap) "SaleDate") "Quantity") "Price") "Category")
      "TotalSales" ↔ _
  simp only [mem_addCol, List.mem_map, or_assoc]

theorem mem_outColsOf (df : DataFrame) (c : String) :
    c ∈ outColsOf df ↔ c ∈ finalCols ∧
      ((∃ a ∈ df.cols, columnMap a = c) ∨ c = "SaleDate" ∨ c = "Quantity"
        ∨ c = "Price" ∨ c = "Category" ∨ c = "TotalSales") := by
  unfold outColsOf
  rw [List.mem_filter]
  rw [show ((addTotalSales (coerceCategory (coercePrice (coerceQuantity
      (coerceDates df.renameCols))))).hasCol c = true)
      = (c ∈ (addTotalSales (coerceCategory (coercePrice (coerceQuantity
      (coerceDates df.renameCols))))).cols) from propext List.elem_iff]
  rw [mem_stageCols]

theorem quantity_mem_outColsOf (df : DataFrame) :
    "Quantity" ∈ outColsOf df := by
  rw [mem_outColsOf]
  exact ⟨by decide, by tauto⟩

theorem price_mem_outColsOf (df : DataFrame) :
    "Price" ∈ outColsOf df := by
  rw [mem_outColsOf]
  exact ⟨by decide, by tauto⟩

theorem totalSales_mem_outColsOf (df : DataFrame) :
    "TotalSales" ∈ outColsOf df := by
  rw [mem_outColsOf]
  exact ⟨by decide, by tauto⟩

/-! ## Claim C2: status filtering -/

/-- C2: for every input row whose STATUS is not exactly the string
"Shipped" or exactly the string "Resolved" (a missing or null STATUS
included), the row pipeline drops the row (`stepFn` yields `none`
regardless of the completeness of the row, i.e. before the completeness
check has any say), and the output rows are exactly the per-row pipeline's
survivors, so no such row reaches the Canonical Record Table. -/
theorem c2_status_filter (df out : DataFrame)
    (hok : transform_data df = Except.ok out)
    (hne : df.isEmpty = false) :
    out.rows = df.rows.filterMap (stepFn df) ∧
    ∀ r : Row, Row.get r "STATUS" ≠ Value.str "Shipped" →
      Row.get r "STATUS" ≠ Value.str "Resolved" →
      stepFn df r = none := by
  refine ⟨transform_ok_rows df out hok hne, ?_⟩
  intro r hS hR
  have hst : statusOK (coerceRow df r) = false := by
    unfold statusOK
    rw [coerceRow_get_status]
    simp [hS, hR]
  unfold stepFn
  simp [hst]

/-! ## Claim C3: completeness drop and coerce-to-null -/

/-- C3: any row that is null in one of SaleDate, Item, Quantity, Price
after renaming and coercion is dropped by the row pipeline (`stepFn`
yields `none`), the output rows being exactly the pipeline's survivors;
and the coercions themselves are total: an unparsable date or number
becomes null rather than an error. -/
theorem c3_completeness_drop (df out : DataFrame)
    (hok : transform_data df = Except.ok out)
    (hne : df.isEmpty = false) :
    (out.rows = df.rows.filterMap (stepFn df) ∧
     ∀ r : Row, rowComplete (coerceRow df r) = false → stepFn df r = none) ∧
    parseDate (Value.str "not-a-date") = Value.null ∧
    parseNum (Value.str "abc") = Value.null := by
  refine ⟨⟨transform_ok_rows df out hok hne, ?_⟩, by decide, by decide⟩
  intro r hincomp
  unfold stepFn
  simp [hincomp]

/-! ## Claim C4: the derived TotalSales column -/

/-- C4: every row of the Canonical Record Table carries numeric Quantity
and Price cells, and its TotalSales cell is exactly their product, with no
further rounding applied. -/
theorem c4_totalsales_product (df out : DataFrame)
    (hok : transform_data df = Except.ok out)
    (hne : df.isEmpty = false) :
    ∀ r ∈ out.rows, ∃ q p : ℚ,
      Row.get r "Quantity" = Value.num q ∧
      Row.get r "Price" = Value.num p ∧
      Row.get r "TotalSales" = Value.num (q * p) := by
  intro r hr
  rw [transform_ok_rows df out hok hne] at hr
  obtain ⟨a, _, hstep⟩ := List.mem_filterMap.mp hr
  simp only [stepFn] at hstep
  split at hstep
  · next hcond =>
    simp only [Option.some.injEq] at hstep
    subst hstep
    have hcomp : rowComplete (coerceRow df a) = true := by
      have h := hcond
      simp only [Bool.and_eq_true] at h
      exact h.2
    have hq : ∃ q, Row.get (coerceRow df a) "Quantity" = Value.num q := by
      rcases coerceRow_get_quantity df a with h | h
      · exact h
      · simp [rowComplete, requiredCols, h] at hcomp
    have hp : ∃ p, Row.get (coerceRow df a) "Price" = Value.num p := by
      rcases coerceRow_get_price df a with h | h
      · exact h
      · simp [rowComplete, requiredCols, h] at hcomp
    obtain ⟨q, hq⟩ := hq
    obtain ⟨p, hp⟩ := hp
    refine ⟨q, p, ?_, ?_, ?_⟩
    · rw [Row.get_proj, if_pos (quantity_mem_outColsOf df),
        Row.get_set_ne _ _ _ _ (by decide), hq]
    · rw [Row.get_proj, if_pos (price_mem_outColsOf df),
        Row.get_set_ne _ _ _ _ (by decide), hp]
    · rw [Row.get_proj, if_pos (totalSales_mem_outColsOf df),
        Row.get_set_self, hq, hp]
      rfl
  · exact absurd hstep (by simp)

/-! ## Claim C7: transform with no STATUS column raises -/

theorem mem_categoryStageCols (df : DataFrame) (c : String) :
    (c ∈ (coerceCategory (coercePrice (coerceQuantity
        (coerceDates df.renameCols)))).cols)
      ↔ ((∃ a ∈ df.cols, columnMap a = c) ∨ c = "SaleDate" ∨ c = "Quantity"
          ∨ c = "Price" ∨ c = "Category") := by
  show c ∈ addCol (addCol (addCol (addCol
      (df.cols.map columnMap) "SaleDate") "Quantity") "Price") "Category"
      ↔ _
  simp only [mem_addCol, List.mem_map, or_assoc]

/-- C7: for a non-empty input whose STATUS column is entirely absent,
transform_data surfaces an exception (the KeyError of `df['STATUS']`, or
the Category step's AttributeError when that column is absent too) rather
than silently returning a table. -/
theorem c7_missing_status_raises (df : DataFrame)
    (hrows : df.rows ≠ []) (hcols : df.cols ≠ [])
    (hstatus : "STATUS" ∉ df.cols) :
    ∃ e, transform_data df = Except.error e := by
  have hne : df.isEmpty = false := by
    simp [DataFrame.isEmpty, List.isEmpty_iff, hrows, hcols]
  unfold transform_data
  rw [hne]
  simp only [Bool.false_eq_true, if_false]
  split
  · have hnomem : "STATUS" ∉ (coerceCategory (coercePrice (coerceQuantity
        (coerceDates df.renameCols)))).cols := by
      rw [mem_categoryStageCols]
      rintro (⟨a, ha, hmap⟩ | h | h | h | h)
      · have ha' : a = "STATUS" :=
          (columnMap_eq_iff a "STATUS" (by decide) (by decide) (by decide)
            (by decide) (by decide) (by decide) (by decide) (by decide)
            (by decide) (by decide)).mp hmap
        exact hstatus (ha' ▸ ha)
      all_goals exact absurd h (by decide)
    have hst : (coerceCategory (coercePrice (coerceQuantity
        (coerceDates df.renameCols)))).hasCol "STATUS" = false := by
      rw [Bool.eq_false_iff]
      intro htrue
      exact hnomem (List.elem_iff.mp htrue)
    rw [hst]
    exact ⟨_, rfl⟩
  · exact ⟨_, rfl⟩

/-! ## Claim C8: the projected column set -/

/-- C8: a non-empty Canonical Record Table has exactly the columns of
`final_cols` that exist at projection time, in `final_cols` order
(a sublist of it), the five always-created columns and Item among them,
source_file exactly when the input carried it, and no STATUS column. -/
theorem c8_projection (df out : DataFrame)
    (hok : transform_data df = Except.ok out)
    (hne : df.isEmpty = false)
    (hrows : out.rows ≠ []) :
    out.cols = outColsOf df ∧
    out.cols.Sublist finalCols ∧
    "STATUS" ∉ out.cols ∧
    "SaleDate" ∈ out.cols ∧ "Item" ∈ out.cols ∧ "Quantity" ∈ out.cols ∧
    "Price" ∈ out.cols ∧ "Category" ∈ out.cols ∧ "TotalSales" ∈ out.cols ∧
    ("source_file" ∈ out.cols ↔ "source_file" ∈ df.cols) := by
  unfold transform_data at hok
  rw [hne] at hok
  simp only [Bool.false_eq_true, if_false] at hok
  split at hok
  · split at hok
    · split at hok
      · next hreq =>
        split at hok
        · next hemp =>
          simp only [Except.ok.injEq] at hok
          subst hok
          exact absurd (droppedFrame_rows_empty df hemp) hrows
        · simp only [Except.ok.injEq] at hok
          subst hok
          have hItem : ∃ a ∈ df.cols, columnMap a = "Item" := by
            simp only [requiredCols, List.all_cons, List.all_nil,
              Bool.and_eq_true, Bool.and_true] at hreq
            have h := hreq.2.1
            have hmem : "Item" ∈ (coerceCategory (coercePrice
                (coerceQuantity (coerceDates df.renameCols)))).cols :=
              List.elem_iff.mp h
            rw [mem_categoryStageCols] at hmem
            rcases hmem with hex | h' | h' | h' | h'
            · exact hex
            all_goals exact absurd h' (by decide)
          have hceq : (project (addTotalSales (dropIncomplete (filterStatus
              (coerceCategory (coercePrice (coerceQuantity
                (coerceDates df.renameCols)))))))).cols = outColsOf df := by
            show List.filter _ finalCols = List.filter _ finalCols
            exact List.filter_congr (fun c _ => rfl)
          rw [hceq]
          refine ⟨rfl, List.filter_sublist _, ?_, ?_, ?_, ?_, ?_, ?_, ?_,
            ?_⟩
          · rw [mem_outColsOf]
            rintro ⟨hfin, -⟩
            exact absurd hfin (by decide)
          · rw [mem_outColsOf]
            exact ⟨by decide, Or.inr (Or.inl rfl)⟩
          · rw [mem_outColsOf]
            exact ⟨by decide, Or.inl hItem⟩
          · rw [mem_outColsOf]
            exact ⟨by decide, Or.inr (Or.inr (Or.inl rfl))⟩
          · rw [mem_outColsOf]
            exact ⟨by decide, Or.inr (Or.inr (Or.inr (Or.inl rfl)))⟩
          · rw [mem_outColsOf]
            exact ⟨by decide,
              Or.inr (Or.inr (Or.inr (Or.inr (Or.inl rfl))))⟩
          · rw [mem_outColsOf]
            exact ⟨by decide,
              Or.inr (Or.inr (Or.inr (Or.inr (Or.inr rfl))))⟩
          · rw [mem_outColsOf]
            constructor
            · rintro ⟨-, hex | h | h | h | h | h⟩
              · obtain ⟨a, ha, hmap⟩ := hex
                have ha' : a = "source_file" :=
                  (columnMap_eq_iff a "source_file" (by decide) (by decide)
                    (by decide) (by decide) (by decide) (by decide)
                    (by decide) (by decide) (by decide) (by decide)).mp hmap
                exact ha' ▸ ha
              all_goals exact absurd h (by decide)
            · intro hmem
              exact ⟨by decide,
                Or.inl ⟨"source_file", hmem, by decide⟩⟩
      · exact absurd hok (by simp)
    · exact absurd hok (by simp)
  · exact absurd hok (by simp)

/-! ## Claim C1: the Category default is broken in the code -/

/-- C1: contrary to the specified behaviour, a null Category value comes
out as the string "nan" (never "Unknown"), because `.astype(str)`
stringifies the null before `.fillna('Unknown')` looks for nulls; and with
the Category column entirely absent, `.astype` is called on the plain
string default `'Unknown'`, raising AttributeError instead of defaulting
every row. -/
theorem c1_category_code_bug :
    transform_data c1NullCatIn = Except.ok c1NullCatOut ∧
    c1NullCatOut.rows.map (fun r => Row.get r "Category")
      = [Value.str "nan"] ∧
    transform_data c1NoCatIn =
      Except.error "AttributeError: str object has no attribute astype" :=
  ⟨by decide, by decide, by decide⟩

/-! ## Claim C5: database failures are contained -/

/-- C5: a failing database write never escapes `load_to_database` — the
function returns normally with the cause logged and the table contents
unchanged — and `main` still performs the flat-file export after the
failed write. -/
theorem c5_db_failure_contained :
    (∀ (df : DataFrame) (e : String) (db : Option DataFrame),
        df.isEmpty = false →
        load_to_database df (some e) db =
          Except.ok (db, ["Failed to load data to database: " ++ e])) ∧
    (∀ (files : List CsvFile) (e : String) (st : Sinks) (t : DataFrame),
        files.isEmpty = false →
        transform_data (load_data files) = Except.ok t →
        t.isEmpty = false →
        main files (some e) st =
          Except.ok (⟨st.dbTable, some t⟩,
            ["Failed to load data to database: " ++ e,
             "Successfully saved transformed data."])) := by
  have hload : ∀ (df : DataFrame) (e : String) (db : Option DataFrame),
      df.isEmpty = false →
      load_to_database df (some e) db =
        Except.ok (db, ["Failed to load data to database: " ++ e]) := by
    intro df e db hne
    unfold load_to_database
    rw [hne]
    simp [to_sql]
  refine ⟨hload, ?_⟩
  intro files e st t hfiles ht htne
  unfold main
  rw [hfiles]
  simp only [Bool.false_eq_true, if_false]
  rw [ht]
  show (match load_to_database t (some e) st.dbTable with
    | Except.error e => Except.error e
    | Except.ok (db', logs) =>
      if t.isEmpty = true then
        Except.ok (({ dbTable := db', exportFile := st.exportFile } :
          Sinks), logs)
      else Except.ok ((⟨db', some t⟩ : Sinks),
        logs ++ ["Successfully saved transformed data."])) = _
  rw [hload t e st.dbTable htne]
  show (if t.isEmpty = true then _ else _) = _
  rw [htne]
  simp

/-! ## Claim C6: empty results are never written -/

/-- C6: an empty Canonical Record Table skips the database write (prior
table contents stay), an empty transform result makes `main` skip the
flat-file export too, and with no discovered files `main` does nothing
downstream at all. -/
theorem c6_empty_skips :
    (∀ (df : DataFrame) (fail : Option String) (db : Option DataFrame),
        df.isEmpty = true →
        load_to_database df fail db =
          Except.ok (db,
            ["Transformed data is empty, skipping database load."])) ∧
    (∀ (files : List CsvFile) (dbFail : Option String) (st : Sinks)
        (t : DataFrame),
        files.isEmpty = false →
        transform_data (load_data files) = Except.ok t →
        t.isEmpty = true →
        main files dbFail st =
          Except.ok (st,
            ["Transformed data is empty, skipping database load."])) ∧
    (∀ (dbFail : Option String) (st : Sinks),
        main [] dbFail st = Except.ok (st, ["No CSV files found."])) := by
  have hload : ∀ (df : DataFrame) (fail : Option String)
      (db : Option DataFrame), df.isEmpty = true →
      load_to_database df fail db =
        Except.ok (db,
          ["Transformed data is empty, skipping database load."]) := by
    intro df fail db hemp
    unfold load_to_database
    rw [hemp]
    simp
  refine ⟨hload, ?_, ?_⟩
  · intro files dbFail st t hfiles ht htemp
    unfold main
    rw [hfiles]
    simp only [Bool.false_eq_true, if_false]
    rw [ht]
    show (match load_to_database t dbFail st.dbTable with
      | Except.error e => Except.error e
      | Except.ok (db', logs) =>
        if t.isEmpty = true then
          Except.ok (({ dbTable := db', exportFile := st.exportFile } :
            Sinks), logs)
        else Except.ok ((⟨db', some t⟩ : Sinks),
          logs ++ ["Successfully saved transformed data."])) = _
    rw [hload t dbFail st.dbTable htemp]
    show (if t.isEmpty = true then _ else _) = _
    rw [htemp]
    simp
  · intro dbFail st
    rfl

/-! ## Claim C9: ingestion concatenates tagged per-file tables -/

theorem mem_concat_cols_foldl (dfs : List DataFrame) (acc : List String)
    (c : String) :
    (c ∈ dfs.foldl
        (fun acc d => acc ++ d.cols.filter (fun x => !acc.contains x)) acc)
      ↔ (c ∈ acc ∨ ∃ d ∈ dfs, c ∈ d.cols) := by
  induction dfs generalizing acc with
  | nil => simp
  | cons d dfs ih =>
    rw [List.foldl_cons, ih]
    have hsub : c ∈ acc ++ d.cols.filter (fun x => !acc.contains x)
        ↔ c ∈ acc ∨ c ∈ d.cols := by
      simp only [List.mem_append, List.mem_filter, Bool.not_eq_true',
        ← Bool.not_eq_true, List.elem_iff]
      by_cases hacc : c ∈ acc <;> simp [hacc]
    rw [hsub]
    simp [or_assoc]

/-- C9: `load_data` concatenates the per-file row lists in discovery
order, each file's rows first tagged under source_file with the file's
base name (a tag every tagged row reads back); the combined column set is
the union of the tagged files' columns; a row lacking a column reads null
there; and an empty file list yields the empty frame. -/
theorem c9_load_data_concat :
    (∀ files : List CsvFile,
        (load_data files).rows
          = (files.map (fun f => (tagSource f).rows)).flatten) ∧
    (∀ f : CsvFile,
        (tagSource f).rows = f.frame.rows.map
          (fun r => r.set "source_file" (Value.str (basename f.path)))) ∧
    (∀ (f : CsvFile) (r : Row),
        Row.get (r.set "source_file" (Value.str (basename f.path)))
          "source_file" = Value.str (basename f.path)) ∧
    (∀ (files : List CsvFile) (c : String),
        c ∈ (load_data files).cols ↔ ∃ f ∈ files, c ∈ (tagSource f).cols) ∧
    (∀ (r : Row) (c : String),
        (∀ p ∈ r, p.1 ≠ c) → Row.get r c = Value.null) ∧
    load_data [] = DataFrame.empty := by
  refine ⟨?_, fun f => rfl, fun f r => Row.get_set_self _ _ _, ?_,
    fun r c h => Row.get_of_no_key r c h, rfl⟩
  · intro files
    cases files with
    | nil => rfl
    | cons f fs =>
      show (((f :: fs).map tagSource).map DataFrame.rows).flatten
          = ((f :: fs).map (fun f => (tagSource f).rows)).flatten
      rw [List.map_map]
      rfl
  · intro files c
    cases files with
    | nil => simp [load_data, DataFrame.empty]
    | cons f fs =>
      show c ∈ (concatFrames ((f :: fs).map tagSource)).cols ↔ _
      unfold concatFrames
      rw [mem_concat_cols_foldl]
      simp

/-! ## Claim C10: transform_data does not mutate its input -/

theorem Heap.alloc_fst_mem (h : Heap) (d : DataFrame) (i : Nat)
    (hi : i ≠ h.next) : ((h.alloc d).1).mem i = h.mem i := by
  simp [Heap.alloc, hi]

theorem Heap.alloc_fst_next (h : Heap) (d : DataFrame) :
    ((h.alloc d).1).next = h.next + 1 := rfl

theorem Heap.alloc_snd (h : Heap) (d : DataFrame) :
    (h.alloc d).2 = h.next := rfl

theorem Heap.write_mem_ne (h : Heap) (j : Nat) (d : DataFrame) (i : Nat)
    (hij : i ≠ j) : (h.write j d).mem i = h.mem i := by
  simp [Heap.write, hij]

theorem Heap.write_next (h : Heap) (j : Nat) (d : DataFrame) :
    (h.write j d).next = h.next := rfl

/-- C10: in the heap model of `transform_data`'s imperative body, the
object the caller passed in is never overwritten: every in-place update
targets a frame allocated inside the function (the rename's copy or the
mask selection's copy), so after the call the caller's frame is exactly
what it was, whatever path the function took. -/
theorem c10_no_input_mutation (h : Heap) (i : Nat) (hi : i < h.next) :
    ((transformHeap h i).1).mem i = h.mem i := by
  have h0 : i ≠ h.next := Nat.ne_of_lt hi
  have h1 : i ≠ h.next + 1 := by omega
  have h2 : i ≠ h.next + 2 := by omega
  unfold transformHeap
  split
  · rfl
  · dsimp only
    repeat' split
    all_goals
      simp only [Heap.write_mem_ne, Heap.write_next, Heap.alloc_fst_mem,
        Heap.alloc_fst_next, Heap.alloc_snd, h0, h1, h2, ne_eq,
        not_false_eq_true]

/-! ## Witnesses -/

theorem c2_status_filter_witness :
    demoOut.rows = demoIn.rows.filterMap (stepFn demoIn) ∧
    stepFn demoIn demoCancelledRow = none :=
  ⟨(c2_status_filter demoIn demoOut (by decide) (by decide)).1,
   (c2_status_filter demoIn demoOut (by decide) (by decide)).2
     demoCancelledRow (by decide) (by decide)⟩

theorem c3_completeness_drop_witness :
    (demoOut.rows = demoIn.rows.filterMap (stepFn demoIn) ∧
     stepFn demoIn demoBadDateRow = none) ∧
    parseDate (Value.str "not-a-date") = Value.null :=
  ⟨⟨(c3_completeness_drop demoIn demoOut (by decide) (by decide)).1.1,
    (c3_completeness_drop demoIn demoOut (by decide) (by decide)).1.2
      demoBadDateRow (by decide)⟩,
   (c3_completeness_drop demoIn demoOut (by decide) (by decide)).2.1⟩

theorem c4_totalsales_witness :
    (∃ q p : ℚ,
      Row.get scenarioARow "Quantity" = Value.num q ∧
      Row.get scenarioARow "Price" = Value.num p ∧
      Row.get scenarioARow "TotalSales" = Value.num (q * p)) ∧
    transform_data scenarioAIn = Except.ok scenarioAOut ∧
    scenarioAOut.rows.length = 1 ∧
    Row.get scenarioARow "TotalSales" = Value.num 7 :=
  ⟨c4_totalsales_product scenarioAIn scenarioAOut (by decide) (by decide)
      scenarioARow (by decide),
   by decide, by decide, by decide⟩

theorem c5_db_failure_witness :
    load_to_database scenarioAOut (some "disk full") (some demoOut) =
      Except.ok (some demoOut,
        ["Failed to load data to database: disk full"]) ∧
    main [fullFile] (some "boom") ⟨some demoOut, none⟩ =
      Except.ok (⟨some demoOut, some fullOut⟩,
        ["Failed to load data to database: boom",
         "Successfully saved transformed data."]) :=
  ⟨c5_db_failure_contained.1 scenarioAOut "disk full" (some demoOut)
      (by decide),
   c5_db_failure_contained.2 [fullFile] "boom" ⟨some demoOut, none⟩ fullOut
      (by decide) (by decide) (by decide)⟩

theorem c6_empty_skips_witness :
    load_to_database DataFrame.empty none (some demoOut) =
      Except.ok (some demoOut,
        ["Transformed data is empty, skipping database load."]) ∧
    main [headerOnlyFile] (some "boom") ⟨some demoOut, none⟩ =
      Except.ok (⟨some demoOut, none⟩,
        ["Transformed data is empty, skipping database load."]) ∧
    main [] none ⟨some demoOut, none⟩ =
      Except.ok (⟨some demoOut, none⟩, ["No CSV files found."]) :=
  ⟨c6_empty_skips.1 DataFrame.empty none (some demoOut) (by decide),
   c6_empty_skips.2.1 [headerOnlyFile] (some "boom") ⟨some demoOut, none⟩
      ⟨["ORDERDATE", "STATUS", "source_file"], []⟩
      (by decide) (by decide) (by decide),
   c6_empty_skips.2.2 none ⟨some demoOut, none⟩⟩

theorem c7_missing_status_witness :
    ∃ e, transform_data c7NoStatusIn = Except.error e :=
  c7_missing_status_raises c7NoStatusIn (by decide) (by decide) (by decide)

theorem c8_projection_witness :
    demoOut.cols = outColsOf demoIn ∧
    demoOut.cols.Sublist finalCols ∧
    "STATUS" ∉ demoOut.cols ∧
    "SaleDate" ∈ demoOut.cols ∧ "Item" ∈ demoOut.cols ∧
    "Quantity" ∈ demoOut.cols ∧ "Price" ∈ demoOut.cols ∧
    "Category" ∈ demoOut.cols ∧ "TotalSales" ∈ demoOut.cols ∧
    ("source_file" ∈ demoOut.cols ↔ "source_file" ∈ demoIn.cols) :=
  c8_projection demoIn demoOut (by decide) (by decide) (by decide)

theorem c9_load_data_witness :
    (load_data [fileA, fileB]).rows
      = ([fileA, fileB].map (fun f => (tagSource f).rows)).flatten ∧
    Row.get [("ORDERDATE", Value.str "2024-01-15")] "PRICEEACH"
      = Value.null :=
  ⟨c9_load_data_concat.1 [fileA, fileB],
   c9_load_data_concat.2.2.2.2.1 [("ORDERDATE", Value.str "2024-01-15")]
      "PRICEEACH" (by decide)⟩

theorem c10_no_input_mutation_witness :
    ((transformHeap ⟨fun _ => demoIn, 1⟩ 0).1).mem 0 = demoIn :=
  c10_no_input_mutation ⟨fun _ => demoIn, 1⟩ 0 (by decide)

end Etl
